import Mathlib

/-!
Shallow embedding of the snapcast-upnp plugin (`snapcast_upnp.py`):
the property mapper (`get_properties`), the command dispatcher
(`send_control`), the notification debouncer (`DmrEventHandler`), and the
JSON-RPC request router (the loop body of `_run`).  Machine-level details
that the claims do not touch (byte-stream I/O, JSON serialisation, the
UPnP transport) are abstracted: outbound lines are modelled as structured
values, and `json.loads` as an `Option Json` (already-parsed or failed).
-/

/-- Transport states of the external renderer profile
(`async_upnp_client.profiles.dlna.TransportState`). -/
inductive TransportState where
  | STOPPED
  | PLAYING
  | TRANSITIONING
  | PAUSED_PLAYBACK
  | PAUSED_RECORDING
  | RECORDING
  | NO_MEDIA_PRESENT
  | VENDOR_DEFINED
  deriving DecidableEq, Repr

/-- Snapshot of the renderer facade (`DmrDevice`) at the attributes the
program reads.  Optional attributes model Python `None`. -/
structure Device where
  transport_state : Option TransportState
  volume_level : Option ℚ
  has_volume_level : Bool
  is_volume_muted : Option Bool
  has_volume_mute : Bool
  media_position : Option ℤ
  can_next : Bool
  can_previous : Bool
  can_play : Bool
  can_pause : Bool
  can_seek_abs_time : Bool
  can_seek_rel_time : Bool
  can_stop : Bool
  media_duration : Option ℚ
  media_artist : Option String
  media_album_name : Option String
  media_album_artist : Option String
  media_title : Option String
  media_image_url : Option String
  deriving DecidableEq, Repr

/-- The `metadata` sub-object built by `get_properties` when the transport
state is not `STOPPED`. -/
structure Metadata where
  duration : ℚ
  artist : List String
  album : String
  albumArtist : List String
  title : String
  artUrl : String
  deriving DecidableEq, Repr

/-- The properties object built by `get_properties`.  `mute` is
`Option Bool` because `device.is_volume_muted` may be Python `None`;
`metadata = none` models the explicit `None` of the stopped branch. -/
structure PlaybackProps where
  playbackStatus : String
  loopStatus : String
  shuffle : Bool
  volume : ℤ
  mute : Option Bool
  rate : ℚ
  position : Option ℤ
  canGoNext : Bool
  canGoPrevious : Bool
  canPlay : Bool
  canPause : Bool
  canSeek : Bool
  canControl : Bool
  metadata : Option Metadata
  deriving DecidableEq, Repr

/-- The dict `_TRANSPORT_STATE_TO_PLAYBACK_STATE`: entries for the four
listed states, `none` for keys not in the dict. -/
def _TRANSPORT_STATE_TO_PLAYBACK_STATE : TransportState → Option String
  | .PLAYING => some "playing"
  | .TRANSITIONING => some "playing"
  | .PAUSED_PLAYBACK => some "paused"
  | .STOPPED => some "stopped"
  | _ => none

/-- `dict.get(device.transport_state, "stopped")`: a `None` transport state
is not a key of the dict, so it also falls back to `"stopped"`. -/
def playback_status_of (ts : Option TransportState) : String :=
  match ts with
  | some t => (_TRANSPORT_STATE_TO_PLAYBACK_STATE t).getD "stopped"
  | none => "stopped"

/-- Python `int()` applied to a rational: truncation toward zero. -/
def pyInt (q : ℚ) : ℤ := if 0 ≤ q then ⌊q⌋ else ⌈q⌉

/-- `get_properties(device)` from the source.  `x or d` on a numeric or
string attribute coincides with `Option.getD` here (the fallbacks `0.0`
and `""` are themselves falsy). -/
def get_properties (device : Device) : PlaybackProps :=
  { playbackStatus := playback_status_of device.transport_state
    loopStatus := "none"
    shuffle := false
    volume :=
      if device.has_volume_level then pyInt (100 * (device.volume_level.getD 0))
      else 100
    mute := if device.has_volume_mute then device.is_volume_muted else some false
    rate := 1
    position := device.media_position
    canGoNext := device.can_next
    canGoPrevious := device.can_previous
    canPlay := device.can_play
    canPause := device.can_pause
    canSeek := device.can_seek_abs_time && device.can_seek_rel_time
    canControl := device.can_stop || device.can_play
    metadata :=
      if device.transport_state ≠ some TransportState.STOPPED then
        some { duration := device.media_duration.getD 0
               artist := [device.media_artist.getD ""]
               album := device.media_album_name.getD ""
               albumArtist := [device.media_album_artist.getD ""]
               title := device.media_title.getD ""
               artUrl := device.media_image_url.getD "" }
      else none }

/-- The renderer facade actions a dispatched command can invoke. -/
inductive ControlAction where
  | stop
  | play
  | pause
  | previous
  | next
  deriving DecidableEq, Repr

/-- `send_control(command, device)`: the dict `control_methods` is rebuilt
on every call, so the `playPause` entry re-reads `device.transport_state`
each time; `dict.get` misses yield `none` (no action invoked). -/
def send_control (command : String) (device : Device) : Option ControlAction :=
  if command = "stop" then some .stop
  else if command = "play" then some .play
  else if command = "pause" then some .pause
  else if command = "playPause" then
    some (if device.transport_state = some TransportState.PAUSED_PLAYBACK
          then ControlAction.play else ControlAction.pause)
  else if command = "previous" then some .previous
  else if command = "next" then some .next
  else none

/-! ## Notification debouncer (`DmrEventHandler`) -/

/-- Mutable state of a `DmrEventHandler` instance: `task` models
`self._task` (`some ()` = a pending notification task exists). -/
structure DmrEventHandlerState where
  task : Option Unit
  deriving DecidableEq, Repr

/-- The outbound notification the delayed task writes:
`Plugin.Stream.Player.Properties` with the freshly mapped properties. -/
structure PropsNotification where
  props : PlaybackProps
  deriving DecidableEq, Repr

namespace DmrEventHandler

/-- One complete execution of `_notify` after its sleep, parameterised by
whether `self._stdout.write` succeeds.  The statements run in source
order: a raising write aborts the body, so the final `self._task = None`
is reached only when the write succeeds. -/
def notify_run (device : Device) (st : DmrEventHandlerState) (write_ok : Bool) :
    DmrEventHandlerState × Option PropsNotification :=
  if write_ok then (⟨none⟩, some ⟨get_properties device⟩)
  else (st, none)

/-- `callback(service, state_variables)`: returns the new state and
whether a new notification task was scheduled this call. -/
def callback (st : DmrEventHandlerState) (state_variables : List String) :
    DmrEventHandlerState × Bool :=
  if state_variables = [] then (st, false)
  else if st.task = none then (⟨some ()⟩, true)
  else (st, false)

end DmrEventHandler

/-! ## JSON values and the request router (loop body of `_run`) -/

/-- Parsed JSON values (the result of a successful `json.loads`). -/
inductive Json where
  | null
  | bool (b : Bool)
  | num (q : ℚ)
  | str (s : String)
  | arr (elems : List Json)
  | obj (fields : List (String × Json))

/-- Python exceptions the loop body can raise; only `JSONDecodeError` is
caught by the loop, and it is modelled by the `Option.none` parse result. -/
inductive PyErr where
  | keyError (k : String)
  | typeError
  | valueError
  | attributeError
  deriving DecidableEq, Repr

/-- `value[k]` subscription: a key miss on a dict raises `KeyError`;
subscripting a non-dict with a string raises `TypeError`. -/
def Json.lookup : Json → String → Except PyErr Json
  | .obj fields, k =>
    match fields.find? (fun p => p.1 = k) with
    | some p => .ok p.2
    | none => .error (.keyError k)
  | _, _ => .error .typeError

/-- `value.rsplit(...)` requires a string; any other JSON value lacks the
attribute and raises `AttributeError`. -/
def Json.asString : Json → Except PyErr String
  | .str s => .ok s
  | _ => .error .attributeError

/-- Split a character list at its last `'.'`:
`some (before, after)` if a dot occurs, else `none`. -/
def rsplitDotAux : List Char → Option (List Char × List Char)
  | [] => none
  | c :: rest =>
    match rsplitDotAux rest with
    | some (a, b) => some (c :: a, b)
    | none => if c = '.' then some ([], rest) else none

/-- `s.rsplit(".", 1)` followed by the 2-tuple unpacking
`interface, command = ...`: yields the pieces around the last dot, or
`none` when the split produced a single element (the unpacking then
raises `ValueError`). -/
def rsplitDot (s : String) : Option (String × String) :=
  match rsplitDotAux s.data with
  | some (a, b) => some (⟨a⟩, ⟨b⟩)
  | none => none

def _SNAPCAST_PLAYER_INTERFACE : String := "Plugin.Stream.Player"

def _SNAPCAST_SUPPORTED_COMMANDS : List String :=
  ["Control", "SetProperty", "GetProperties"]

/-- `result` payloads carried by the two response-producing branches. -/
inductive ResultVal where
  | okStr
  | props (p : PlaybackProps)

/-- An outbound JSON-RPC response line as built by `jsonrpc_response`
(the `jsonrpc: "2.0"` literal is constant and omitted; serialisation to
a byte line is out of scope). -/
structure OutLine where
  id : Json
  result : ResultVal

/-- `jsonrpc_response(result, id=...)`. -/
def jsonrpc_response (result : ResultVal) (id : Json) : OutLine := ⟨id, result⟩

/-- The default of `jsonrpc_response`'s `id` keyword parameter. -/
def jsonrpc_response_default_id : Json := Json.num 1

/-- `send_control(request["params"]["command"], device)` where the command
argument is an arbitrary JSON value: a string key dispatches normally,
hashable non-strings (numbers, booleans, null) miss the dict silently,
and unhashable values (lists, dicts) make `dict.get` raise `TypeError`. -/
def send_control_json (cj : Json) (device : Device) : Except PyErr (Option ControlAction) :=
  match cj with
  | .str s => .ok (send_control s device)
  | .arr _ => .error .typeError
  | .obj _ => .error .typeError
  | _ => .ok none

/-- Outcome of one loop iteration: proceed to the next `readline`, or an
uncaught exception that tears the loop down. -/
inductive Outcome where
  | continueLoop
  | raised (e : PyErr)

/-- Observable effects of handling one inbound line: the outbound lines
written, the renderer actions invoked (in order), and the outcome. -/
structure StepResult where
  outputs : List OutLine
  actions : List ControlAction
  outcome : Outcome

/-- The body of `_run`'s `while True` loop for one inbound line, after
`json.loads`: `none` is a parse failure (caught: log and continue); on a
parsed value the body runs the interface/command checks and the
`GetProperties` / `Control` branches, with Python exception semantics. -/
def handle_line (device : Device) (parsed : Option Json) : StepResult :=
  match parsed with
  | none => ⟨[], [], .continueLoop⟩
  | some request =>
    match request.lookup "method" with
    | .error e => ⟨[], [], .raised e⟩
    | .ok mj =>
      match mj.asString with
      | .error e => ⟨[], [], .raised e⟩
      | .ok method =>
        match rsplitDot method with
        | none => ⟨[], [], .raised .valueError⟩
        | some (interface, command) =>
          if interface ≠ _SNAPCAST_PLAYER_INTERFACE then ⟨[], [], .continueLoop⟩
          else if command ∉ _SNAPCAST_SUPPORTED_COMMANDS then ⟨[], [], .continueLoop⟩
          else
            let outs :=
              if command = "GetProperties" then
                [jsonrpc_response (.props (get_properties device)) jsonrpc_response_default_id]
              else []
            if command = "Control" then
              match request.lookup "params" with
              | .error e => ⟨outs, [], .raised e⟩
              | .ok pj =>
                match pj.lookup "command" with
                | .error e => ⟨outs, [], .raised e⟩
                | .ok cj =>
                  match send_control_json cj device with
                  | .error e => ⟨outs, [], .raised e⟩
                  | .ok act =>
                    match request.lookup "id" with
                    | .error e => ⟨outs, act.toList, .raised e⟩
                    | .ok idj =>
                      ⟨outs ++ [jsonrpc_response .okStr idj], act.toList, .continueLoop⟩
            else ⟨outs, [], .continueLoop⟩

/-- Cumulative observable effects of running the loop over a list of
inbound lines: outputs and actions accumulate until the first uncaught
exception, which terminates the loop and discards the remaining lines. -/
structure RunResult where
  outputs : List OutLine
  actions : List ControlAction
  uncaught : Option PyErr

/-- The `while True` loop of `_run` over a finite prefix of the inbound
stream. -/
def run_lines (device : Device) : List (Option Json) → RunResult
  | [] => ⟨[], [], none⟩
  | l :: rest =>
    let r := handle_line device l
    match r.outcome with
    | .raised e => ⟨r.outputs, r.actions, some e⟩
    | .continueLoop =>
      let rr := run_lines device rest
      ⟨r.outputs ++ rr.outputs, r.actions ++ rr.actions, rr.uncaught⟩

/-! ## Concrete fixtures -/

/-- A concrete renderer snapshot used to instantiate theorems. -/
def sampleDevice : Device :=
  { transport_state := some .PLAYING
    volume_level := some (1 / 2)
    has_volume_level := true
    is_volume_muted := some false
    has_volume_mute := true
    media_position := some 12
    can_next := true
    can_previous := true
    can_play := true
    can_pause := true
    can_seek_abs_time := true
    can_seek_rel_time := true
    can_stop := true
    media_duration := some 180
    media_artist := some "Artist"
    media_album_name := some "Album"
    media_album_artist := some "AlbumArtist"
    media_title := some "Title"
    media_image_url := some "http://art" }

/-- A renderer snapshot in an unrecognised transport state (one outside
the keys of `_TRANSPORT_STATE_TO_PLAYBACK_STATE`). -/
def noMediaDevice : Device :=
  { sampleDevice with transport_state := some .NO_MEDIA_PRESENT }

/-- A renderer snapshot whose volume level makes truncation and rounding
differ. -/
def dev299 : Device :=
  { sampleDevice with volume_level := some (299 / 1000) }

/-- A renderer snapshot at full volume (level 1.0). -/
def fullVolumeDevice : Device :=
  { sampleDevice with volume_level := some 1 }

/-- A debouncer state with a notification task pending. -/
def pendingState : DmrEventHandlerState := ⟨some ()⟩

/-! ## C1: metadata presence vs playbackStatus -/

/-- C1 counterexample: in the unrecognised transport state
`NO_MEDIA_PRESENT` the mapper emits `playbackStatus = "stopped"` (the
dict default) yet still populates `metadata`, so metadata presence is not
determined by `playbackStatus` and the claim is false as stated. -/
theorem C1_counterexample :
    (get_properties noMediaDevice).playbackStatus = "stopped" ∧
    (get_properties noMediaDevice).metadata ≠ none := by
  exact ⟨rfl, by decide⟩

/-- C1 amended: `metadata` is absent exactly when the renderer's transport
state is literally `STOPPED`; for unrecognised states (mapped to
`playbackStatus = "stopped"` by default) `metadata` is still populated. -/
theorem C1_amended (d : Device) :
    (get_properties d).metadata = none ↔
      d.transport_state = some TransportState.STOPPED := by
  simp only [get_properties]
  split
  · rename_i h
    simp [h]
  · rename_i h
    simp at h
    simp [h]

/-! ## C4: pending marker after a failing write -/

/-- C4 counterexample: when the outbound write raises, `_notify` never
reaches `self._task = None`, so the pending-task marker stays set and a
later renderer event schedules no new notification task. -/
theorem C4_counterexample :
    (DmrEventHandler.notify_run sampleDevice pendingState false).1.task ≠ none ∧
    (DmrEventHandler.callback
        (DmrEventHandler.notify_run sampleDevice pendingState false).1
        ["TransportState"]).2 = false := by
  decide

/-- C4 amended: the delayed task clears the pending marker only when the
outbound write succeeds; if the write raises, the handler state is left
unchanged (marker still set) and any later event arriving while the
marker is set schedules no new task. -/
theorem C4_amended (device : Device) (st : DmrEventHandlerState)
    (vars : List String) :
    (DmrEventHandler.notify_run device st true).1.task = none ∧
    DmrEventHandler.notify_run device st false = (st, none) ∧
    (DmrEventHandler.callback ⟨some ()⟩ vars).2 = false := by
  refine ⟨rfl, rfl, ?_⟩
  by_cases h : vars = [] <;> simp [DmrEventHandler.callback, h]

/-! ## C5: volume mapping -/

/-- C5 counterexample: with volume supported and level 0.299 the code
computes `int(100 * level) = 29` (truncation), while the claimed
`round(100 * level)` is 30. -/
theorem C5_counterexample :
    (get_properties dev299).volume ≠
      round ((100 : ℚ) * (dev299.volume_level.getD 0)) ∧
    (get_properties dev299).volume = 29 ∧
    round ((100 : ℚ) * (dev299.volume_level.getD 0)) = 30 := by
  have h1 : (get_properties dev299).volume = 29 := by
    show (if dev299.has_volume_level
          then pyInt (100 * (dev299.volume_level.getD 0)) else 100) = 29
    norm_num [dev299, sampleDevice, pyInt]
  have h2 : round ((100 : ℚ) * (dev299.volume_level.getD 0)) = 30 := by
    norm_num [dev299, sampleDevice, round_eq]
  refine ⟨?_, h1, h2⟩
  rw [h1, h2]
  decide

/-- C5 amended: when the renderer reports volume support the emitted
volume is the truncation `⌊100 * level⌋` (Python `int()`, not rounding),
an integer in `[0, 100]` for levels in `[0, 1]`; when volume is
unsupported it is exactly 100 regardless of any level. -/
theorem C5_amended (d : Device)
    (h0 : 0 ≤ d.volume_level.getD 0) (h1 : d.volume_level.getD 0 ≤ 1) :
    (get_properties d).volume =
      (if d.has_volume_level then ⌊(100 : ℚ) * d.volume_level.getD 0⌋ else 100) ∧
    0 ≤ (get_properties d).volume ∧ (get_properties d).volume ≤ 100 := by
  have hv : (get_properties d).volume =
      (if d.has_volume_level then pyInt (100 * d.volume_level.getD 0) else 100) := rfl
  have hq : (0 : ℚ) ≤ 100 * d.volume_level.getD 0 := by positivity
  have hpy : pyInt (100 * d.volume_level.getD 0) = ⌊(100 : ℚ) * d.volume_level.getD 0⌋ := by
    simp [pyInt, hq]
  have hfl0 : (0 : ℤ) ≤ ⌊(100 : ℚ) * d.volume_level.getD 0⌋ :=
    Int.floor_nonneg.mpr hq
  have hle : (100 : ℚ) * d.volume_level.getD 0 ≤ 100 := by nlinarith
  have hfl100 : ⌊(100 : ℚ) * d.volume_level.getD 0⌋ ≤ 100 := by
    calc ⌊(100 : ℚ) * d.volume_level.getD 0⌋ ≤ ⌊(100 : ℚ)⌋ := Int.floor_le_floor hle
    _ = 100 := by norm_num
  rw [hv, hpy]
  refine ⟨rfl, ?_, ?_⟩ <;> cases d.has_volume_level <;> simp [hfl0, hfl100]

/-- C5 witness: `C5_amended` applied to `fullVolumeDevice` (volume
supported, level 1.0). -/
theorem C5_witness :
    (0 ≤ fullVolumeDevice.volume_level.getD 0 ∧
     fullVolumeDevice.volume_level.getD 0 ≤ 1) ∧
    ((get_properties fullVolumeDevice).volume =
       (if fullVolumeDevice.has_volume_level
        then ⌊(100 : ℚ) * fullVolumeDevice.volume_level.getD 0⌋ else 100) ∧
     0 ≤ (get_properties fullVolumeDevice).volume ∧
     (get_properties fullVolumeDevice).volume ≤ 100) :=
  ⟨⟨by decide, by decide⟩, C5_amended fullVolumeDevice (by decide) (by decide)⟩

/-! ## C6: playPause resolution -/

/-- C6: `playPause` is resolved against the transport state read at the
current call (`send_control` rebuilds its dispatch dict per call, so
nothing is cached): in `PAUSED_PLAYBACK` it invokes the play action, in
every other state (playing, stopped, unrecognised, or unknown) the pause
action. -/
theorem C6_playPause (d : Device) :
    (send_control "playPause" d = some ControlAction.play ↔
      d.transport_state = some TransportState.PAUSED_PLAYBACK) ∧
    (send_control "playPause" d = some ControlAction.pause ↔
      d.transport_state ≠ some TransportState.PAUSED_PLAYBACK) := by
  have h : send_control "playPause" d =
      some (if d.transport_state = some TransportState.PAUSED_PLAYBACK
            then ControlAction.play else ControlAction.pause) := rfl
  rw [h]
  by_cases hts : d.transport_state = some TransportState.PAUSED_PLAYBACK <;>
    simp [hts]

/-! ## C7: playbackStatus is total over transport states -/

/-- C7: for every renderer snapshot (any recognised or unrecognised
transport state, including a missing one) `playbackStatus` is one of
{"playing", "paused", "stopped"}: PLAYING and TRANSITIONING map to
"playing", PAUSED_PLAYBACK to "paused", and everything else defaults to
"stopped"; the mapping is total and never raises. -/
theorem C7_playbackStatus_total (d : Device) :
    ((get_properties d).playbackStatus = "playing" ∨
     (get_properties d).playbackStatus = "paused" ∨
     (get_properties d).playbackStatus = "stopped") ∧
    ((get_properties d).playbackStatus = "playing" ↔
      (d.transport_state = some TransportState.PLAYING ∨
       d.transport_state = some TransportState.TRANSITIONING)) ∧
    ((get_properties d).playbackStatus = "paused" ↔
      d.transport_state = some TransportState.PAUSED_PLAYBACK) ∧
    ((get_properties d).playbackStatus = "stopped" ↔
      ¬(d.transport_state = some TransportState.PLAYING ∨
        d.transport_state = some TransportState.TRANSITIONING ∨
        d.transport_state = some TransportState.PAUSED_PLAYBACK)) := by
  have h : (get_properties d).playbackStatus =
      playback_status_of d.transport_state := rfl
  rw [h]
  cases hts : d.transport_state with
  | none => simp [playback_status_of]
  | some t =>
    cases t <;>
      simp [playback_status_of, _TRANSPORT_STATE_TO_PLAYBACK_STATE]

/-! ## C8: at most one pending task; empty events ignored -/

/-- C8: `callback` schedules no task when one is already pending (a pure
no-op that leaves the state untouched, not a timer restart), and an event
carrying zero state-variable changes schedules no task at all. -/
theorem C8_debounce_no_reschedule (st : DmrEventHandlerState)
    (vars : List String) (h : st.task ≠ none ∨ vars = []) :
    DmrEventHandler.callback st vars = (st, false) := by
  rcases h with h | h
  · by_cases he : vars = [] <;> simp [DmrEventHandler.callback, he, h]
  · simp [DmrEventHandler.callback, h]

/-- C8 witness: `C8_debounce_no_reschedule` applied to a state with a
pending task and a one-variable event. -/
theorem C8_witness :
    (pendingState.task ≠ none ∨ (["Volume"] : List String) = []) ∧
    DmrEventHandler.callback pendingState ["Volume"] = (pendingState, false) :=
  ⟨Or.inl (by decide),
   C8_debounce_no_reschedule pendingState ["Volume"] (Or.inl (by decide))⟩

/-! ## Router fixtures -/

/-- `{"id": 7, "jsonrpc": "2.0", "method": "Plugin.Stream.Player.GetProperties"}` -/
def getPropsReqId7 : Json :=
  .obj [("id", .num 7), ("jsonrpc", .str "2.0"),
        ("method", .str "Plugin.Stream.Player.GetProperties")]

/-- A Control request carrying a command but no `id` field. -/
def controlStopReqNoId : Json :=
  .obj [("jsonrpc", .str "2.0"),
        ("method", .str "Plugin.Stream.Player.Control"),
        ("params", .obj [("command", .str "stop")])]

/-- A Control request whose `params` object lacks the `"command"` key. -/
def controlNoCommandReq : Json :=
  .obj [("id", .num 3), ("jsonrpc", .str "2.0"),
        ("method", .str "Plugin.Stream.Player.Control"),
        ("params", .obj [])]

/-- A syntactically valid JSON object whose method has no dot separator. -/
def nodotReq : Json := .obj [("method", .str "nodot")]

/-- A SetProperty request with a params payload. -/
def setPropertyReq : Json :=
  .obj [("id", .num 5), ("jsonrpc", .str "2.0"),
        ("method", .str "Plugin.Stream.Player.SetProperty"),
        ("params", .obj [("volume", .num 50)])]

/-! ## C2: response id correlation -/

/-- C2 is a code bug: the GetProperties branch calls `jsonrpc_response`
without passing the request's id, so the response id is always the
default 1 even when the request carries id 7; and the Control branch
evaluates `request["id"]` with no fallback, so a Control request without
an id raises `KeyError` (after the renderer action has already been
invoked) instead of defaulting to 1. -/
theorem C2_code_bug_eval (d : Device) :
    (handle_line d (some getPropsReqId7)).outputs =
      [jsonrpc_response (.props (get_properties d)) (Json.num 1)] ∧
    Json.num 1 ≠ Json.num 7 ∧
    (handle_line d (some controlStopReqNoId)).outcome =
      .raised (.keyError "id") ∧
    (handle_line d (some controlStopReqNoId)).actions = [ControlAction.stop] := by
  refine ⟨rfl, ?_, rfl, rfl⟩
  intro h
  injection h with h2
  norm_num at h2

/-! ## C3: per-line failure recovery in steps 1 to 3 -/

/-- C3 counterexample: `{"method": "nodot"}` is valid JSON whose method
does not name the plugin-player interface, yet the router raises an
uncaught `ValueError` (the 2-tuple unpacking of `rsplit` fails), which
terminates the request loop instead of dropping the line. -/
theorem C3_counterexample :
    (handle_line sampleDevice (some nodotReq)).outcome = .raised .valueError ∧
    (run_lines sampleDevice [some nodotReq, some getPropsReqId7]).uncaught =
      some .valueError ∧
    (run_lines sampleDevice [some nodotReq, some getPropsReqId7]).outputs = [] :=
  ⟨rfl, rfl, rfl⟩

/-- C3 amended: a line that fails JSON parsing is dropped silently and the
loop continues; so is any parsed object whose method value is a string
containing a separator and whose interface or command check then fails.
But a valid-JSON line on which those checks cannot even run (for example
an object whose method string has no separator) raises an uncaught
exception and terminates the loop. -/
theorem C3_amended (d : Device) (fields : List (String × Json))
    (m i c : String) (rest : List (Option Json))
    (hm : (Json.obj fields).lookup "method" = .ok (.str m))
    (hsplit : rsplitDot m = some (i, c))
    (hfail : i ≠ _SNAPCAST_PLAYER_INTERFACE ∨ c ∉ _SNAPCAST_SUPPORTED_COMMANDS) :
    handle_line d (some (.obj fields)) = ⟨[], [], .continueLoop⟩ ∧
    run_lines d (none :: rest) = run_lines d rest ∧
    run_lines d (some (.obj fields) :: rest) = run_lines d rest := by
  have h1 : handle_line d (some (.obj fields)) = ⟨[], [], .continueLoop⟩ := by
    simp only [handle_line, hm, Json.asString, hsplit]
    rcases hfail with hf | hf
    · rw [if_pos hf]
    · by_cases hi : i = _SNAPCAST_PLAYER_INTERFACE
      · rw [if_neg (not_not_intro hi), if_pos hf]
      · rw [if_pos hi]
  refine ⟨h1, ?_, ?_⟩
  · simp [run_lines, handle_line]
  · simp [run_lines, h1]

/-- C3 witness: `C3_amended` applied to `{"method": "Foo.Bar"}` (unknown
interface) ahead of a well-formed GetProperties request. -/
theorem C3_witness :
    ((Json.obj [("method", Json.str "Foo.Bar")]).lookup "method" =
       .ok (.str "Foo.Bar") ∧
     rsplitDot "Foo.Bar" = some ("Foo", "Bar") ∧
     ("Foo" ≠ _SNAPCAST_PLAYER_INTERFACE ∨
      "Bar" ∉ _SNAPCAST_SUPPORTED_COMMANDS)) ∧
    handle_line sampleDevice (some (.obj [("method", Json.str "Foo.Bar")])) =
      ⟨[], [], .continueLoop⟩ ∧
    run_lines sampleDevice (some (.obj [("method", Json.str "Foo.Bar")]) ::
        [some getPropsReqId7]) =
      run_lines sampleDevice [some getPropsReqId7] :=
  ⟨⟨rfl, rfl, Or.inl (by decide)⟩,
   (C3_amended sampleDevice [("method", Json.str "Foo.Bar")] "Foo.Bar" "Foo" "Bar"
      [some getPropsReqId7] rfl rfl (Or.inl (by decide))).1,
   (C3_amended sampleDevice [("method", Json.str "Foo.Bar")] "Foo.Bar" "Foo" "Bar"
      [some getPropsReqId7] rfl rfl (Or.inl (by decide))).2.2⟩

/-! ## C9: SetProperty is inert -/

/-- C9: a request whose method resolves to the plugin-player interface
with command SetProperty passes both checks but matches neither the
GetProperties nor the Control branch: no renderer action, no outbound
line, and the loop continues with the remaining lines. -/
theorem C9_setProperty_inert (d : Device) (fields : List (String × Json))
    (rest : List (Option Json))
    (hm : (Json.obj fields).lookup "method" =
      .ok (.str "Plugin.Stream.Player.SetProperty")) :
    handle_line d (some (.obj fields)) = ⟨[], [], .continueLoop⟩ ∧
    run_lines d (some (.obj fields) :: rest) = run_lines d rest := by
  have h1 : handle_line d (some (.obj fields)) = ⟨[], [], .continueLoop⟩ := by
    simp only [handle_line]
    rw [hm]
    rfl
  exact ⟨h1, by simp [run_lines, h1]⟩

/-- C9 witness: `C9_setProperty_inert` applied to a concrete SetProperty
request followed by one more line. -/
theorem C9_witness :
    ((Json.obj [("id", Json.num 5), ("jsonrpc", Json.str "2.0"),
        ("method", Json.str "Plugin.Stream.Player.SetProperty"),
        ("params", Json.obj [("volume", Json.num 50)])]).lookup "method" =
      .ok (.str "Plugin.Stream.Player.SetProperty")) ∧
    handle_line sampleDevice (some setPropertyReq) = ⟨[], [], .continueLoop⟩ ∧
    run_lines sampleDevice [some setPropertyReq, none] =
      run_lines sampleDevice [none] :=
  ⟨rfl,
   (C9_setProperty_inert sampleDevice
      [("id", Json.num 5), ("jsonrpc", Json.str "2.0"),
       ("method", Json.str "Plugin.Stream.Player.SetProperty"),
       ("params", Json.obj [("volume", Json.num 50)])] [none] rfl).1,
   (C9_setProperty_inert sampleDevice
      [("id", Json.num 5), ("jsonrpc", Json.str "2.0"),
       ("method", Json.str "Plugin.Stream.Player.SetProperty"),
       ("params", Json.obj [("volume", Json.num 50)])] [none] rfl).2⟩

/-! ## C10: Control without params.command crashes the loop -/

/-- C10: a syntactically valid Control request that passes the namespace
and command checks but whose params object lacks the `"command"` key
makes `request["params"]["command"]` raise an uncaught `KeyError`, so the
iteration neither responds nor drops the line and the request loop
terminates, discarding every later line. -/
theorem C10_control_missing_command (d : Device) (rest : List (Option Json)) :
    handle_line d (some controlNoCommandReq) =
      ⟨[], [], .raised (.keyError "command")⟩ ∧
    run_lines d (some controlNoCommandReq :: rest) =
      ⟨[], [], some (.keyError "command")⟩ :=
  ⟨rfl, rfl⟩
